import Mathlib

/-!
Shallow embedding of the VitalGene pharmacogenomics pipeline
(`services/pgxEngine` : `processPGx`, `calculateRisk`, `getRecommendation`,
together with the static tables of `constants.ts`).

Modelling conventions:
* TypeScript string-union types (`RiskLabel`, `Severity`, `Phenotype`,
  `SupportedDrug`, `SupportedGene`) become inductive enumerations.
* JavaScript string operations (`split`, `trim`, `toUpperCase`,
  `startsWith`, `includes`, a `GENE=([^;]+)` regex match and `parseInt`)
  are embedded as executable functions over `String.data` character lists.
* `number` values that are only ever the constants 0.95 / 0.99 are `ℚ`;
  `parseInt` results are `Option Int` (`none` standing for `NaN`).
* Wall-clock timestamps and the external LLM explanation are omitted from
  the embedded `PGxReport`: both are produced outside the pipeline logic
  (`new Date()` and the Gemini collaborator), so equality of embedded
  reports is exactly "equality up to timestamps and generated prose".
* Thrown `Error`s become an `Except PGxError` result.
-/

namespace VitalGene

/-- Risk labels, from the `RiskLabel` union in `types.ts`. -/
inductive RiskLabel
  | Safe
  | AdjustDosage
  | Toxic
  | Ineffective
  | Unknown
deriving DecidableEq

/-- Severities, from the `Severity` union in `types.ts`. -/
inductive Severity
  | none
  | low
  | moderate
  | high
  | critical
deriving DecidableEq

/-- Metabolizer phenotypes, from the `Phenotype` union in `types.ts`. -/
inductive Phenotype
  | PM
  | IM
  | NM
  | RM
  | URM
  | Unknown
deriving DecidableEq, Fintype

/-- The six supported drugs, from the `SupportedDrug` union in `types.ts`. -/
inductive SupportedDrug
  | CODEINE
  | WARFARIN
  | CLOPIDOGREL
  | SIMVASTATIN
  | AZATHIOPRINE
  | FLUOROURACIL
deriving DecidableEq, Fintype

/-- The six target pharmacogenes, from the `SupportedGene` union in `types.ts`. -/
inductive SupportedGene
  | CYP2D6
  | CYP2C19
  | CYP2C9
  | SLCO1B1
  | TPMT
  | DPYD
deriving DecidableEq

/-- The string spelling of a supported drug (the TypeScript union is a string type). -/
def drugToString : SupportedDrug → String
  | .CODEINE => "CODEINE"
  | .WARFARIN => "WARFARIN"
  | .CLOPIDOGREL => "CLOPIDOGREL"
  | .SIMVASTATIN => "SIMVASTATIN"
  | .AZATHIOPRINE => "AZATHIOPRINE"
  | .FLUOROURACIL => "FLUOROURACIL"

/-- The string spelling of a supported gene. -/
def geneToString : SupportedGene → String
  | .CYP2D6 => "CYP2D6"
  | .CYP2C19 => "CYP2C19"
  | .CYP2C9 => "CYP2C9"
  | .SLCO1B1 => "SLCO1B1"
  | .TPMT => "TPMT"
  | .DPYD => "DPYD"

/-! ### JavaScript string primitives, embedded over character lists -/

/-- `String.prototype.split` with a single-character separator: every
occurrence splits, empty pieces are kept, `split` of the empty string is
one empty piece. -/
def splitCharList (sep : Char) : List Char → List (List Char)
  | [] => [[]]
  | c :: rest =>
    match splitCharList sep rest with
    | [] => if c = sep then [[], []] else [[c]]
    | h :: t => if c = sep then [] :: h :: t else (c :: h) :: t

/-- `split` on a `String`, via `splitCharList`. -/
def jsSplit (sep : Char) (s : String) : List String :=
  (splitCharList sep s.data).map String.mk

/-- `String.prototype.trim`: whitespace stripped from both ends. -/
def jsTrim (s : String) : String :=
  String.mk (((s.data.dropWhile Char.isWhitespace).reverse.dropWhile Char.isWhitespace).reverse)

/-- `String.prototype.toUpperCase` (ASCII, which covers every input the
pipeline compares against). -/
def jsToUpper (s : String) : String :=
  String.mk (s.data.map Char.toUpper)

/-- `String.prototype.startsWith`. -/
def jsStartsWith (s pre : String) : Bool :=
  pre.data.isPrefixOf s.data

/-- Helper for `String.prototype.includes`: substring search over lists. -/
def containsAux (pat : List Char) : List Char → Bool
  | [] => pat.isEmpty
  | c :: rest => pat.isPrefixOf (c :: rest) || containsAux pat rest

/-- `String.prototype.includes`. -/
def strContains (s pat : String) : Bool :=
  containsAux pat.data s.data

/-- The digits-prefix value used by `parseInt`: `none` when no leading digit. -/
def digitsValue (cs : List Char) : Option Nat :=
  match cs.takeWhile Char.isDigit with
  | [] => Option.none
  | ds => Option.some (ds.foldl (fun a c => a * 10 + (c.toNat - 48)) 0)

/-- `parseInt` in base 10: optional leading whitespace and sign, then a
decimal-digit prefix; `none` models `NaN`. -/
def parseIntJS (s : String) : Option Int :=
  match s.data.dropWhile Char.isWhitespace with
  | '-' :: rest => (digitsValue rest).map (fun n => -(n : Int))
  | '+' :: rest => (digitsValue rest).map (fun n => (n : Int))
  | cs => (digitsValue cs).map (fun n => (n : Int))

/-- First match of the regex `GENE=([^;]+)` inside the INFO field: scan for
the literal `GENE=`, capture one-or-more following non-semicolon characters;
an empty capture makes the regex engine resume the scan one position later. -/
def matchGENE : List Char → Option String
  | [] => Option.none
  | c :: rest =>
    if ['G', 'E', 'N', 'E', '='].isPrefixOf (c :: rest) then
      match ((c :: rest).drop 5).takeWhile (fun ch => ch ≠ ';') with
      | [] => matchGENE rest
      | cap => Option.some (String.mk cap)
    else matchGENE rest

/-! ### Data model (`types.ts`) -/

/-- A detected variant record (`Variant` in `types.ts`). `position` is the
`parseInt` result, `none` standing for `NaN`. -/
structure Variant where
  rsid : String
  gene : String
  position : Option Int
  ref : String
  alt : String
  starAllele : String
  significance : String
  genotype : String
  chromosome : String
deriving DecidableEq

/-- Knowledge-base entry (`VariantMeta` in `constants.ts`). -/
structure VariantMeta where
  gene : SupportedGene
  starAllele : String
  phenotype : Phenotype
  significance : String
deriving DecidableEq

/-- `VARIANT_KNOWLEDGE_BASE` from `constants.ts`, keyed by rsID. -/
def VARIANT_KNOWLEDGE_BASE (id : String) : Option VariantMeta :=
  if id = "rs3892097" then Option.some ⟨.CYP2D6, "*4", .PM, "No function"⟩
  else if id = "rs3758581" then Option.some ⟨.CYP2D6, "*10", .IM, "Decreased function"⟩
  else if id = "rs4244285" then Option.some ⟨.CYP2C19, "*2", .PM, "No function"⟩
  else if id = "rs12248560" then Option.some ⟨.CYP2C19, "*17", .RM, "Increased function"⟩
  else if id = "rs1057910" then Option.some ⟨.CYP2C9, "*3", .PM, "No function"⟩
  else if id = "rs1799853" then Option.some ⟨.CYP2C9, "*2", .IM, "Decreased function"⟩
  else if id = "rs4149056" then Option.some ⟨.SLCO1B1, "*5", .PM, "Decreased function (Myopathy Risk)"⟩
  else if id = "rs1801131" then Option.some ⟨.TPMT, "*3C", .IM, "No function"⟩
  else if id = "rs1142345" then Option.some ⟨.TPMT, "*3A", .PM, "No function"⟩
  else if id = "rs3918290" then Option.some ⟨.DPYD, "*2A", .PM, "No function (Life-threatening toxicity)"⟩
  else Option.none

/-- `TARGET_GENES` from `constants.ts`, as the string list the parser's
`includes` check consults. -/
def TARGET_GENES : List String :=
  ["CYP2D6", "CYP2C19", "CYP2C9", "SLCO1B1", "TPMT", "DPYD"]

/-- `DRUG_GENE_MAP` from `constants.ts`. -/
def DRUG_GENE_MAP : SupportedDrug → SupportedGene
  | .CODEINE => .CYP2D6
  | .WARFARIN => .CYP2C9
  | .CLOPIDOGREL => .CYP2C19
  | .SIMVASTATIN => .SLCO1B1
  | .AZATHIOPRINE => .TPMT
  | .FLUOROURACIL => .DPYD

/-- Resolution of a normalized drug name against `DRUG_GENE_MAP`
membership (`DRUG_GENE_MAP[d as SupportedDrug]` truthiness). -/
def strToDrug (s : String) : Option SupportedDrug :=
  if s = "CODEINE" then Option.some .CODEINE
  else if s = "WARFARIN" then Option.some .WARFARIN
  else if s = "CLOPIDOGREL" then Option.some .CLOPIDOGREL
  else if s = "SIMVASTATIN" then Option.some .SIMVASTATIN
  else if s = "AZATHIOPRINE" then Option.some .AZATHIOPRINE
  else if s = "FLUOROURACIL" then Option.some .FLUOROURACIL
  else Option.none

/-! ### Variant Parser (`processPGx`, lines 19-62) -/

/-- Mutable state of the parsing loop in `processPGx`. -/
structure ParseState where
  variants : List Variant
  patientId : String
  variantsAnalyzed : Nat
  headerFound : Bool
deriving DecidableEq

/-- Initial parser state (`PATIENT_PROFILED`, nothing scanned). -/
def initState : ParseState :=
  { variants := [], patientId := "PATIENT_PROFILED", variantsAnalyzed := 0, headerFound := false }

/-- One iteration of the `for (const line of lines)` loop of `processPGx`. -/
def processLine (st : ParseState) (line : String) : ParseState :=
  let trimmed := jsTrim line
  if trimmed = "" then st
  else if jsStartsWith trimmed "##" then st
  else if jsStartsWith trimmed "#CHROM" then
    let parts := jsSplit '\t' trimmed
    { st with
        headerFound := true,
        patientId := if parts.length > 9 then jsTrim (parts.getD 9 "") else st.patientId }
  else if st.headerFound = false then st
  else
    let st1 : ParseState := { st with variantsAnalyzed := st.variantsAnalyzed + 1 }
    let cols := jsSplit '\t' trimmed
    if cols.length < 8 then st1
    else
      let chrom := cols.getD 0 ""
      let pos := cols.getD 1 ""
      let id := cols.getD 2 ""
      let refA := cols.getD 3 ""
      let altA := cols.getD 4 ""
      let info := cols.getD 7 ""
      let meta := VARIANT_KNOWLEDGE_BASE id
      let geneSymbol : Option String :=
        match meta with
        | Option.some m => Option.some (geneToString m.gene)
        | Option.none => matchGENE info.data
      match geneSymbol with
      | Option.some g =>
        if TARGET_GENES.contains g then
          let genotypeField :=
            if cols.length > 9 then (jsSplit ':' (cols.getD 9 "")).headD "" else "0/0"
          { st1 with
              variants := st1.variants ++
                [{ rsid := if id = "." then "snp_" ++ pos else id,
                   gene := g,
                   position := parseIntJS pos,
                   ref := refA,
                   alt := altA,
                   starAllele := match meta with | Option.some m => m.starAllele | Option.none => "*1",
                   significance := match meta with | Option.some m => m.significance | Option.none => "Wild-type",
                   genotype := genotypeField,
                   chromosome := chrom }] }
        else st1
      | Option.none => st1

/-- The whole parsing phase of `processPGx`: `split('\n')` then the line loop. -/
def parseVCF (vcfData : String) : ParseState :=
  (jsSplit '\n' vcfData).foldl processLine initState

/-- The variant record the parser's data branch retains from one line, or
`none` when the line is discarded (fewer than 8 columns, no resolvable
gene, or a gene outside `TARGET_GENES`).  `processLine_eq` below proves
that `processLine` appends exactly this on every post-header data line. -/
def lineVariant (line : String) : Option Variant :=
  let cols := jsSplit '\t' (jsTrim line)
  if cols.length < 8 then Option.none
  else
    let meta := VARIANT_KNOWLEDGE_BASE (cols.getD 2 "")
    let geneSymbol : Option String :=
      match meta with
      | Option.some m => Option.some (geneToString m.gene)
      | Option.none => matchGENE (cols.getD 7 "").data
    match geneSymbol with
    | Option.some g =>
      if TARGET_GENES.contains g then
        let genotypeField :=
          if cols.length > 9 then (jsSplit ':' (cols.getD 9 "")).headD "" else "0/0"
        Option.some
          { rsid := if cols.getD 2 "" = "." then "snp_" ++ cols.getD 1 "" else cols.getD 2 "",
            gene := g,
            position := parseIntJS (cols.getD 1 ""),
            ref := cols.getD 3 "",
            alt := cols.getD 4 "",
            starAllele := match meta with | Option.some m => m.starAllele | Option.none => "*1",
            significance := match meta with | Option.some m => m.significance | Option.none => "Wild-type",
            genotype := genotypeField,
            chromosome := cols.getD 0 "" }
      else Option.none
    | Option.none => Option.none

/-- The gene symbol the parser resolves for a data line: knowledge-base
lookup of the ID column, else the `GENE=` match in the INFO column; `none`
when the line has fewer than 8 tab-delimited columns. -/
def resolvedGene (line : String) : Option String :=
  let cols := jsSplit '\t' (jsTrim line)
  if cols.length < 8 then Option.none
  else
    match VARIANT_KNOWLEDGE_BASE (cols.getD 2 "") with
    | Option.some m => Option.some (geneToString m.gene)
    | Option.none => matchGENE (cols.getD 7 "").data

/-- Agreement between two parse states up to `k` extra scanned data lines
of genes other than `g`: same subject id and header flag, same variants of
gene `g`, and a scan count larger by exactly `k`. -/
def StateAgree (g : String) (k : Nat) (st st' : ParseState) : Prop :=
  st'.patientId = st.patientId ∧
  st'.headerFound = st.headerFound ∧
  st'.variants.filter (fun v => v.gene = g) = st.variants.filter (fun v => v.gene = g) ∧
  st'.variantsAnalyzed = st.variantsAnalyzed + k

/-! ### Diplotype/Phenotype Inferencer (`processPGx`, lines 81-100) -/

/-- The predicate of the driving-variant search:
`v.genotype === '1/1' || v.genotype === '0/1'`. -/
def isHomOrHet (v : Variant) : Bool :=
  v.genotype = "1/1" || v.genotype = "0/1"

/-- `geneVariants.find(...) || geneVariants[0]`: the first variant (in
insertion order) whose genotype is exactly `1/1` or `0/1`, else the head. -/
def drivingVariant (v0 : Variant) (rest : List Variant) : Variant :=
  ((v0 :: rest).find? isHomOrHet).getD v0

/-- Phenotype and diplotype inference for the gene-filtered variant list
(`processPGx`, lines 81-100): defaults `NM` / `*1/*1`, zygosity mapping on
the driving variant, then the `rs12248560` override. -/
def inferPhenoDiplo : List Variant → Phenotype × String
  | [] => (.NM, "*1/*1")
  | v0 :: rest =>
    let activeVariant := drivingVariant v0 rest
    let meta := VARIANT_KNOWLEDGE_BASE activeVariant.rsid
    let base : Phenotype × String :=
      if activeVariant.genotype = "1/1" then
        match meta with
        | Option.some m => (m.phenotype, m.starAllele ++ "/" ++ m.starAllele)
        | Option.none => (.PM, "*X/*X")
      else if activeVariant.genotype = "0/1" ∨ activeVariant.genotype = "1/0" then
        match meta with
        | Option.some m => (.IM, "*1/" ++ m.starAllele)
        | Option.none => (.IM, "*1/*X")
      else (.NM, "*1/*1")
    if activeVariant.rsid = "rs12248560" ∧ activeVariant.genotype ≠ "0/0" then
      ((if activeVariant.genotype = "1/1" then .URM else .RM), base.2)
    else base

/-! ### Risk Classifier (`calculateRisk`) -/

/-- `RiskAssessment` from `types.ts` (confidence as an exact rational). -/
structure RiskAssessment where
  risk_label : RiskLabel
  severity : Severity
  confidence_score : ℚ
deriving DecidableEq

/-- `calculateRisk`: the `NM` short-circuit, then the drug `switch` whose
unmatched cases keep the initial `Safe` / `none` / `0.95` values. -/
def calculateRisk (drug : SupportedDrug) (phenotype : Phenotype) : RiskAssessment :=
  if phenotype = .NM then { risk_label := .Safe, severity := .none, confidence_score := mkRat 99 100 }
  else
    let ls : RiskLabel × Severity :=
      match drug with
      | .CODEINE =>
        if phenotype = .PM then (.Ineffective, .moderate)
        else if phenotype = .URM ∨ phenotype = .RM then (.Toxic, .critical)
        else if phenotype = .IM then (.AdjustDosage, .low)
        else (.Safe, .none)
      | .CLOPIDOGREL =>
        if phenotype = .PM then (.Ineffective, .high)
        else if phenotype = .IM then (.AdjustDosage, .moderate)
        else (.Safe, .none)
      | .WARFARIN =>
        if phenotype = .PM then (.Toxic, .high)
        else if phenotype = .IM then (.AdjustDosage, .moderate)
        else (.Safe, .none)
      | .SIMVASTATIN =>
        if phenotype = .PM then (.Toxic, .high)
        else if phenotype = .IM then (.AdjustDosage, .low)
        else (.Safe, .none)
      | .AZATHIOPRINE =>
        if phenotype = .PM ∨ phenotype = .Unknown then (.Toxic, .critical)
        else if phenotype = .IM then (.AdjustDosage, .high)
        else (.Safe, .none)
      | .FLUOROURACIL =>
        if phenotype = .PM ∨ phenotype = .Unknown then (.Toxic, .critical)
        else if phenotype = .IM then (.AdjustDosage, .high)
        else (.Safe, .none)
    { risk_label := ls.1, severity := ls.2, confidence_score := mkRat 95 100 }

/-! ### Recommendation Resolver (`getRecommendation`) -/

/-- `ClinicalRecommendation` from `types.ts`. -/
structure ClinicalRecommendation where
  action : String
  dosingGuideline : String
  monitoringAdvice : String
  alternativeDrugs : List String
  cpicGuideline : String
  evidenceLevel : String
deriving DecidableEq

/-- A `Partial<ClinicalRecommendation>` override entry. -/
structure OverrideRec where
  action : Option String := Option.none
  dosingGuideline : Option String := Option.none
  monitoringAdvice : Option String := Option.none
  alternativeDrugs : Option (List String) := Option.none
  cpicGuideline : Option String := Option.none
  evidenceLevel : Option String := Option.none
deriving DecidableEq

/-- The `baseline` record of `getRecommendation`. -/
def baseline : ClinicalRecommendation :=
  { action := "Standard Dosing",
    dosingGuideline := "Prescribe standard starting dose according to package insert.",
    monitoringAdvice := "Routine monitoring required.",
    alternativeDrugs := [],
    cpicGuideline := "CPIC Level A evidence suggests normal metabolic activity.",
    evidenceLevel := "A" }

/-- The object spread `{ ...baseline, ...override }`: fields present in the
override replace the baseline's, all others are kept. -/
def mergeRec (b : ClinicalRecommendation) (o : OverrideRec) : ClinicalRecommendation :=
  { action := o.action.getD b.action,
    dosingGuideline := o.dosingGuideline.getD b.dosingGuideline,
    monitoringAdvice := o.monitoringAdvice.getD b.monitoringAdvice,
    alternativeDrugs := o.alternativeDrugs.getD b.alternativeDrugs,
    cpicGuideline := o.cpicGuideline.getD b.cpicGuideline,
    evidenceLevel := o.evidenceLevel.getD b.evidenceLevel }

/-- The `recs` lookup table of `getRecommendation`, keyed by the
`drug-phenotype` pair (drug names contain no dash, so the string key
`` `${drug}-${phenotype}` `` is equivalent to the pair). -/
def recsLookup (drug : SupportedDrug) (phenotype : Phenotype) : Option OverrideRec :=
  match drug, phenotype with
  | .CODEINE, .PM => Option.some
      { action := Option.some "Avoid Use",
        dosingGuideline := Option.some "Poor metabolizer status results in lack of conversion to active morphine.",
        monitoringAdvice := Option.some "Monitor for lack of analgesic efficacy.",
        alternativeDrugs := Option.some ["Oxycodone", "Morphine", "NSAIDs"],
        cpicGuideline := Option.some "Avoid codeine use in CYP2D6 Poor Metabolizers." }
  | .CODEINE, .URM => Option.some
      { action := Option.some "Avoid Use",
        dosingGuideline := Option.some "High risk of opioid toxicity due to rapid conversion to morphine.",
        monitoringAdvice := Option.some "Respiratory monitoring required if used.",
        alternativeDrugs := Option.some ["Tramadol", "Morphine"],
        cpicGuideline := Option.some "Avoid codeine due to risk of life-threatening respiratory depression." }
  | .WARFARIN, .PM => Option.some
      { action := Option.some "Major Dose Reduction",
        dosingGuideline := Option.some "Reduce starting dose by 50-70% based on sensitivity.",
        monitoringAdvice := Option.some "Frequent INR checks until stable.",
        alternativeDrugs := Option.some ["Apixaban", "Rivaroxaban"],
        cpicGuideline := Option.some "Significant reduction in warfarin clearance observed in CYP2C9 PMs." }
  | .CLOPIDOGREL, .PM => Option.some
      { action := Option.some "Alternative Therapy",
        dosingGuideline := Option.some "Reduced active metabolite levels lead to increased cardiovascular event risk.",
        alternativeDrugs := Option.some ["Prasugrel", "Ticagrelor"],
        cpicGuideline := Option.some "Recommend alternative antiplatelet therapy for CYP2C19 Poor Metabolizers." }
  | .AZATHIOPRINE, .PM => Option.some
      { action := Option.some "Reduce Dose / Alternative",
        dosingGuideline := Option.some "Reduce starting dose by 90% or use alternative therapy.",
        monitoringAdvice := Option.some "Weekly CBC for myelosuppression risk.",
        cpicGuideline := Option.some "TPMT Poor Metabolizers require drastic dose reduction or alternative agents." }
  | .FLUOROURACIL, .PM => Option.some
      { action := Option.some "Avoid Use / Major Reduction",
        dosingGuideline := Option.some "Avoid or reduce starting dose by 50% or more.",
        monitoringAdvice := Option.some "Intensive monitoring for severe toxicity.",
        cpicGuideline := Option.some "DPYD deficiency is associated with life-threatening 5-FU toxicity." }
  | _, _ => Option.none

/-- The fallback override `{ action: 'Dose Adjustment Advised', ... }` used
when the `(drug, phenotype)` key is absent from the table. -/
def fallbackOverride : OverrideRec :=
  { action := Option.some "Dose Adjustment Advised",
    dosingGuideline := Option.some "Modify starting dose per metabolizer status." }

/-- `getRecommendation`: `NM` returns the baseline; otherwise the override
(or the fallback) is spread over the baseline. -/
def getRecommendation (drug : SupportedDrug) (phenotype : Phenotype) : ClinicalRecommendation :=
  if phenotype = .NM then baseline
  else mergeRec baseline ((recsLookup drug phenotype).getD fallbackOverride)

/-! ### Pipeline Orchestrator (`processPGx`) -/

/-- `PGxProfile` from `types.ts`. -/
structure PGxProfile where
  primary_gene : String
  diplotype : String
  phenotype : Phenotype
  detected_variants : List Variant
deriving DecidableEq

/-- `QualityMetrics` from `types.ts`, without the wall-clock timestamp. -/
structure QualityMetrics where
  vcf_parsing_success : Bool
  variantsAnalyzed : Nat
  pharmacogenomicVariantsFound : Nat
  annotationCompleteness : ℚ
deriving DecidableEq

/-- `PGxReport` from `types.ts`, without the wall-clock timestamp and the
externally generated `llm_generated_explanation` prose (the latter is a
function of the structured fields below, computed by a collaborator). -/
structure PGxReport where
  patient_id : String
  drug : String
  risk_assessment : RiskAssessment
  pharmacogenomic_profile : PGxProfile
  clinical_recommendation : ClinicalRecommendation
  quality_metrics : QualityMetrics
deriving DecidableEq

/-- The thrown errors of `processPGx`. -/
inductive PGxError
  | FormatError
  | UnsupportedDrugError
deriving DecidableEq

/-- Normalization applied to each requested drug name:
`d.trim().toUpperCase()`. -/
def normalizeDrug (d : String) : String :=
  jsToUpper (jsTrim d)

/-- The resolved drug list: split on commas, normalize, keep the names that
are keys of `DRUG_GENE_MAP` (`processPGx`, lines 64-65). -/
def recognizedDrugs (drugInput : String) : List SupportedDrug :=
  ((jsSplit ',' drugInput).map normalizeDrug).filterMap strToDrug

/-- The per-drug body of the report loop of `processPGx` (lines 73-133):
gene filter, inference, risk, recommendation, report assembly. -/
def buildReport (st : ParseState) (drug : SupportedDrug) : PGxReport :=
  let targetGene := DRUG_GENE_MAP drug
  let geneVariants := st.variants.filter (fun v => v.gene = geneToString targetGene)
  let pd := inferPhenoDiplo geneVariants
  { patient_id := st.patientId,
    drug := drugToString drug,
    risk_assessment := calculateRisk drug pd.1,
    pharmacogenomic_profile :=
      { primary_gene := geneToString targetGene,
        diplotype := pd.2,
        phenotype := pd.1,
        detected_variants := geneVariants },
    clinical_recommendation := getRecommendation drug pd.1,
    quality_metrics :=
      { vcf_parsing_success := true,
        variantsAnalyzed := st.variantsAnalyzed,
        pharmacogenomicVariantsFound := geneVariants.length,
        annotationCompleteness := mkRat 99 100 } }

/-- `processPGx`: format check, parse, drug resolution, one report per
resolved drug (the `if (!targetGene) continue` guard never fires because
`DRUG_GENE_MAP` is total on `SupportedDrug`). -/
def processPGx (vcfData drugInput : String) : Except PGxError (List PGxReport) :=
  if vcfData = "" ∨ strContains vcfData "##fileformat=VCF" = false then
    Except.error PGxError.FormatError
  else if recognizedDrugs drugInput = [] then Except.error PGxError.UnsupportedDrugError
  else Except.ok ((recognizedDrugs drugInput).map (buildReport (parseVCF vcfData)))

end VitalGene

deriving instance DecidableEq for Except

namespace VitalGene

/-! ### Concrete inputs used by counterexamples and witnesses -/

/-- A VCF input with one data line: the Warfarin-relevant CYP2C9 variant
rs1057910 with homozygous-alternate genotype. -/
def vcfWarfarin : String :=
  "##fileformat=VCFv4.2\n#CHROM\tPOS\tID\tREF\tALT\tQUAL\tFILTER\tINFO\tFORMAT\tP1\nchr10\t94981296\trs1057910\tA\tC\t100\tPASS\tGENE=CYP2C9\tGT\t1/1"

/-- `vcfWarfarin` plus one extra data line for an unrelated gene
(CYP2C19, which no requested Warfarin run targets). -/
def vcfTwoGenes : String :=
  vcfWarfarin ++ "\nchr10\t94781859\trs4244285\tG\tA\t100\tPASS\tGENE=CYP2C19\tGT\t1/1"

/-- A heterozygous CYP2C9 `*2` variant record (rs1799853, genotype `0/1`). -/
def vHet : Variant :=
  { rsid := "rs1799853", gene := "CYP2C9", position := Option.some 94781859, ref := "C",
    alt := "T", starAllele := "*2", significance := "Decreased function",
    genotype := "0/1", chromosome := "chr10" }

/-- A homozygous-alternate CYP2C9 `*3` variant record (rs1057910, genotype `1/1`). -/
def vHom : Variant :=
  { rsid := "rs1057910", gene := "CYP2C9", position := Option.some 94981296, ref := "A",
    alt := "C", starAllele := "*3", significance := "No function",
    genotype := "1/1", chromosome := "chr10" }

/-- A homozygous-alternate CYP2C19 `*2` variant record (rs4244285, genotype `1/1`). -/
def v2c19pm : Variant :=
  { rsid := "rs4244285", gene := "CYP2C19", position := Option.some 94781859, ref := "G",
    alt := "A", starAllele := "*2", significance := "No function",
    genotype := "1/1", chromosome := "chr10" }

/-- The increased-function marker rs12248560 (CYP2C19 `*17`) with
homozygous-alternate genotype. -/
def vRs17 : Variant :=
  { rsid := "rs12248560", gene := "CYP2C19", position := Option.some 94761900, ref := "C",
    alt := "T", starAllele := "*17", significance := "Increased function",
    genotype := "1/1", chromosome := "chr10" }

/-- The report list of the duplicate request used to witness claim C10. -/
def reportsWW : List PGxReport :=
  (recognizedDrugs "WARFARIN, WARFARIN").map (buildReport (parseVCF vcfWarfarin))

end VitalGene

namespace VitalGene

/-- Claim C5: for every drug, classifying phenotype normal-metabolizer
returns risk label `Safe`, severity `none` and confidence score 0.99,
independent of any drug-specific rule. -/
theorem claim5_nm_always_safe :
    (∀ d : SupportedDrug, calculateRisk d .NM =
      { risk_label := .Safe, severity := .none, confidence_score := mkRat 99 100 }) ∧
    mkRat 99 100 = (0.99 : ℚ) := by
  constructor
  · intro d; rfl
  · rw [Rat.mkRat_eq_div]; norm_num

/-- Claim C1 fails on the code: for the prodrug CLOPIDOGREL the
rapid-metabolizer phenotype is not covered by any drug rule and falls
through to the `Safe`/`none` default, not `Toxic`. -/
theorem claim1_counterexample :
    calculateRisk .CLOPIDOGREL .RM =
      { risk_label := .Safe, severity := .none, confidence_score := mkRat 95 100 } ∧
    RiskLabel.Safe ≠ RiskLabel.Toxic := by
  exact ⟨rfl, by decide⟩

/-- Claim C1 amended: the rapid/ultra-rapid-to-`Toxic` prodrug rule is
implemented only for CODEINE; for CLOPIDOGREL those phenotypes fall through
to the `Safe`/`none` default, and every non-normal classification carries
the default confidence 0.95. -/
theorem claim1_amended :
    (∀ p : Phenotype, p = .RM ∨ p = .URM →
      calculateRisk .CODEINE p =
        { risk_label := .Toxic, severity := .critical, confidence_score := mkRat 95 100 }) ∧
    (∀ p : Phenotype, p = .RM ∨ p = .URM →
      calculateRisk .CLOPIDOGREL p =
        { risk_label := .Safe, severity := .none, confidence_score := mkRat 95 100 }) ∧
    (∀ (d : SupportedDrug) (p : Phenotype), p ≠ .NM →
      (calculateRisk d p).confidence_score = mkRat 95 100) := by
  refine ⟨?_, ?_, ?_⟩ <;> decide

/-- Witness for the amended claim C1 at concrete phenotypes. -/
theorem claim1_amended_witness :
    calculateRisk .CODEINE .RM =
      { risk_label := .Toxic, severity := .critical, confidence_score := mkRat 95 100 } ∧
    calculateRisk .CLOPIDOGREL .URM =
      { risk_label := .Safe, severity := .none, confidence_score := mkRat 95 100 } ∧
    (calculateRisk .WARFARIN .PM).confidence_score = mkRat 95 100 :=
  ⟨claim1_amended.1 .RM (Or.inl rfl), claim1_amended.2.1 .URM (Or.inr rfl),
    claim1_amended.2.2 .WARFARIN .PM (by decide)⟩

/-- Claim C3 fails on the code: the driving-variant search is a single
pass matching genotype `1/1` or `0/1`, so an earlier heterozygous variant
wins over a later homozygous-alternate one (the claim predicts the
opposite, phenotype `PM` with diplotype from the homozygous variant). -/
theorem claim3_counterexample :
    vHet.genotype = "0/1" ∧ vHom.genotype = "1/1" ∧ vHet ≠ vHom ∧
    drivingVariant vHet [vHom] = vHet ∧
    inferPhenoDiplo [vHet, vHom] = (.IM, "*1/*2") ∧
    Phenotype.IM ≠ Phenotype.PM := by decide

/-- `List.find?` returns the first element of a decomposition whose prefix
all fails the predicate and whose middle element satisfies it. -/
theorem find?_first_match {α : Type} (p : α → Bool) :
    ∀ (l1 : List α) (v : α) (l2 : List α), p v = true → (∀ u ∈ l1, p u = false) →
      (l1 ++ v :: l2).find? p = Option.some v
  | [], v, l2, hv, _ => by simp [List.find?_cons_of_pos, hv]
  | u :: l1, v, l2, hv, hall => by
    have hu : p u = false := hall u (List.mem_cons_self u l1)
    rw [List.cons_append, List.find?_cons_of_neg _ (by simp [hu])]
    exact find?_first_match p l1 v l2 hv (fun x hx => hall x (List.mem_cons_of_mem u hx))

/-- Claim C3 amended: the driving variant is the first variant, in
insertion order, whose genotype is exactly `1/1` or `0/1` (a single
left-to-right pass, with no priority of homozygous over heterozygous and
no `1/0` match); when no variant matches, the head of the list is used. -/
theorem claim3_amended (v0 : Variant) (rest : List Variant) :
    drivingVariant v0 rest ∈ v0 :: rest ∧
    ((v0 :: rest).find? isHomOrHet = Option.none → drivingVariant v0 rest = v0) ∧
    (∀ l1 v l2, v0 :: rest = l1 ++ v :: l2 → isHomOrHet v = true →
      (∀ u ∈ l1, isHomOrHet u = false) → drivingVariant v0 rest = v) := by
  refine ⟨?_, ?_, ?_⟩
  · unfold drivingVariant
    cases h : (v0 :: rest).find? isHomOrHet with
    | none => simp [List.mem_cons]
    | some a => simpa using List.mem_of_find?_eq_some h
  · intro h; unfold drivingVariant; rw [h]; rfl
  · intro l1 v l2 hdec hv hall
    unfold drivingVariant
    rw [hdec, find?_first_match isHomOrHet l1 v l2 hv hall]
    rfl

/-- Witness for the amended claim C3: in the two-variant list whose second
element is homozygous-alternate, the first, heterozygous element drives. -/
theorem claim3_amended_witness : drivingVariant vHet [vHom] = vHet :=
  (claim3_amended vHet [vHom]).2.2 [] vHet [vHom] rfl (by decide)
    (fun u hu => absurd hu (List.not_mem_nil u))

end VitalGene

namespace VitalGene

/-- Claim C4 fails on the code: rs12248560 present with a non-reference
genotype does not reclassify the phenotype when another variant earlier in
insertion order is selected as the driving variant. -/
theorem claim4_counterexample :
    vRs17.rsid = "rs12248560" ∧ vRs17.genotype = "1/1" ∧ vRs17 ∈ [v2c19pm, vRs17] ∧
    (inferPhenoDiplo [v2c19pm, vRs17]).1 = .PM ∧
    (inferPhenoDiplo [v2c19pm, vRs17]).1 ≠ .URM := by decide

/-- Claim C4 amended: the rs12248560 override applies exactly when
rs12248560 is the selected driving variant; with a non-reference genotype
it then forces ultra-rapid-metabolizer for `1/1` and rapid-metabolizer for
any other non-reference genotype, superseding the generic mapping. -/
theorem claim4_amended (v0 : Variant) (rest : List Variant)
    (h1 : (drivingVariant v0 rest).rsid = "rs12248560")
    (h2 : (drivingVariant v0 rest).genotype ≠ "0/0") :
    (inferPhenoDiplo (v0 :: rest)).1 =
      if (drivingVariant v0 rest).genotype = "1/1" then .URM else .RM := by
  simp only [inferPhenoDiplo]
  rw [if_pos ⟨h1, h2⟩]

/-- Witness for the amended claim C4: rs12248560 homozygous-alternate as
the only variant yields the ultra-rapid-metabolizer phenotype. -/
theorem claim4_amended_witness :
    (inferPhenoDiplo [vRs17]).1 =
      if (drivingVariant vRs17 []).genotype = "1/1" then Phenotype.URM else Phenotype.RM :=
  claim4_amended vRs17 [] (by decide) (by decide)

/-- Claim C6: when the driving variant is not rs12248560 and is
homozygous-alternate, a knowledge-base poor-metabolizer category yields
phenotype `PM` with diplotype star/star, and a variant unknown to the
knowledge base defaults to phenotype `PM`. -/
theorem claim6_hom_alt_pm (v0 : Variant) (rest : List Variant)
    (hrs : (drivingVariant v0 rest).rsid ≠ "rs12248560")
    (hgt : (drivingVariant v0 rest).genotype = "1/1") :
    (∀ m, VARIANT_KNOWLEDGE_BASE (drivingVariant v0 rest).rsid = Option.some m →
      m.phenotype = .PM →
      inferPhenoDiplo (v0 :: rest) = (.PM, m.starAllele ++ "/" ++ m.starAllele)) ∧
    (VARIANT_KNOWLEDGE_BASE (drivingVariant v0 rest).rsid = Option.none →
      (inferPhenoDiplo (v0 :: rest)).1 = .PM) := by
  constructor
  · intro m hm hpm
    simp only [inferPhenoDiplo]
    rw [if_neg (fun hand => hrs hand.1), if_pos hgt, hm]
    simp [hpm]
  · intro hm
    simp only [inferPhenoDiplo]
    rw [if_neg (fun hand => hrs hand.1), if_pos hgt, hm]

/-- Witness for claim C6: rs1057910 homozygous-alternate alone yields
phenotype `PM` and diplotype `*3/*3`. -/
theorem claim6_witness : inferPhenoDiplo [vHom] = (Phenotype.PM, "*3" ++ "/" ++ "*3") :=
  (claim6_hom_alt_pm vHom [] (by decide) (by decide)).1
    ⟨.CYP2C9, "*3", .PM, "No function"⟩ (by decide) rfl

end VitalGene

namespace VitalGene

/-- Claim C8: for every non-normal phenotype the resolver is the baseline
record merged with the table override for the pair — fields absent from the
override keep the baseline values — and pairs absent from the table get the
generic fallback that changes only the action and the dosing guideline. -/
theorem claim8_override_merge (d : SupportedDrug) (p : Phenotype) (h : p ≠ .NM) :
    getRecommendation d p = mergeRec baseline ((recsLookup d p).getD fallbackOverride) ∧
    (recsLookup d p = Option.none →
      getRecommendation d p =
        { baseline with action := "Dose Adjustment Advised",
                        dosingGuideline := "Modify starting dose per metabolizer status." }) ∧
    (∀ o, recsLookup d p = Option.some o →
      (o.monitoringAdvice = Option.none →
        (getRecommendation d p).monitoringAdvice = baseline.monitoringAdvice) ∧
      (o.alternativeDrugs = Option.none →
        (getRecommendation d p).alternativeDrugs = baseline.alternativeDrugs) ∧
      (o.evidenceLevel = Option.none →
        (getRecommendation d p).evidenceLevel = baseline.evidenceLevel) ∧
      (∀ a, o.action = Option.some a → (getRecommendation d p).action = a)) := by
  have hg : getRecommendation d p = mergeRec baseline ((recsLookup d p).getD fallbackOverride) := by
    unfold getRecommendation
    rw [if_neg h]
  refine ⟨hg, ?_, ?_⟩
  · intro hn
    rw [hg, hn]
    rfl
  · intro o ho
    rw [hg, ho]
    refine ⟨fun h1 => ?_, fun h1 => ?_, fun h1 => ?_, fun a h1 => ?_⟩ <;>
      simp [mergeRec, h1]

/-- Witness for claim C8: the CLOPIDOGREL/PM override specifies no
monitoring advice, so the merged recommendation keeps the baseline's. -/
theorem claim8_witness :
    (getRecommendation .CLOPIDOGREL .PM).monitoringAdvice = baseline.monitoringAdvice := by
  have h := (claim8_override_merge .CLOPIDOGREL .PM (by decide)).2.2
    { action := Option.some "Alternative Therapy",
      dosingGuideline :=
        Option.some "Reduced active metabolite levels lead to increased cardiovascular event risk.",
      alternativeDrugs := Option.some ["Prasugrel", "Ticagrelor"],
      cpicGuideline :=
        Option.some "Recommend alternative antiplatelet therapy for CYP2C19 Poor Metabolizers." }
    rfl
  exact h.1 rfl

/-- Claim C7: the pipeline fails with the format error exactly when the
file-format declaration is absent from the input (and parsing itself,
being total, never raises once the declaration is present). -/
theorem claim7_format_error (vcf drugs : String) :
    processPGx vcf drugs = Except.error PGxError.FormatError ↔
      strContains vcf "##fileformat=VCF" = false := by
  unfold processPGx
  split_ifs with h1 h2
  · simp only [true_iff]
    rcases h1 with rfl | h1
    · rfl
    · exact h1
  · constructor
    · intro he
      exact absurd he (by simp)
    · intro hc
      exact absurd (Or.inr hc) h1
  · constructor
    · intro he
      exact absurd he (by simp)
    · intro hc
      exact absurd (Or.inr hc) h1

end VitalGene

namespace VitalGene

/-- Claim C9: drug names are trimmed and uppercased; once the format check
has passed, the unsupported-drug error is raised exactly when no normalized
name resolves, and unrecognized names alongside a recognized one are
silently dropped — `"WARFARIN, UNKNOWNDRUG"` yields exactly one WARFARIN
report. -/
theorem claim9_drug_resolution :
    (∀ vcf drugs : String,
      processPGx vcf drugs = Except.error PGxError.UnsupportedDrugError ↔
        (strContains vcf "##fileformat=VCF" = true ∧ recognizedDrugs drugs = [])) ∧
    recognizedDrugs "WARFARIN, UNKNOWNDRUG" = [SupportedDrug.WARFARIN] ∧
    (processPGx vcfWarfarin "WARFARIN, UNKNOWNDRUG").map (List.map PGxReport.drug) =
      Except.ok ["WARFARIN"] := by
  refine ⟨?_, by decide, by decide⟩
  intro vcf drugs
  unfold processPGx
  split_ifs with h1 h2
  · constructor
    · intro he
      exact absurd he (by simp)
    · intro hrhs
      rcases h1 with rfl | h1
      · exact absurd hrhs.1 (by decide)
      · rw [h1] at hrhs
        exact absurd hrhs.1 (by decide)
  · constructor
    · intro _
      refine ⟨?_, h2⟩
      by_contra hft
      exact h1 (Or.inr (by simpa using hft))
    · intro _
      rfl
  · constructor
    · intro he
      exact absurd he (by simp)
    · intro hrhs
      exact absurd hrhs.2 h2

/-- A name the resolver recognizes spells back to itself. -/
theorem strToDrug_roundtrip (n : String) (d : SupportedDrug)
    (h : strToDrug n = Option.some d) : drugToString d = n := by
  cases d <;> (unfold strToDrug at h; split_ifs at h <;> simp_all [drugToString])

/-- Mapping resolved drugs back to their spelling recovers the recognized
sublist of the normalized request, in order with duplicates kept. -/
theorem filterMap_strToDrug_spelling (names : List String) :
    (names.filterMap strToDrug).map drugToString =
      names.filter (fun n => (strToDrug n).isSome) := by
  induction names with
  | nil => rfl
  | cons n ns ih =>
    cases h : strToDrug n with
    | none => simp [List.filterMap_cons, List.filter_cons, h, ih]
    | some d => simp [List.filterMap_cons, List.filter_cons, h, ih, strToDrug_roundtrip n d h]

/-- Claim C10: on success the report list corresponds one-to-one, in
order and with duplicates, to the recognized names of the request — the
i-th report's drug field is the i-th recognized normalized name, and equal
recognized entries produce equal (timestamp-excepted) reports. -/
theorem claim10_report_order (vcf drugs : String) (reports : List PGxReport)
    (h : processPGx vcf drugs = Except.ok reports) :
    reports.map PGxReport.drug =
      ((jsSplit ',' drugs).map normalizeDrug).filter (fun n => (strToDrug n).isSome) ∧
    ∀ i j : Nat, (recognizedDrugs drugs)[i]? = (recognizedDrugs drugs)[j]? →
      reports[i]? = reports[j]? := by
  unfold processPGx at h
  by_cases h1 : vcf = "" ∨ strContains vcf "##fileformat=VCF" = false
  · rw [if_pos h1] at h
    exact absurd h (by simp)
  · rw [if_neg h1] at h
    by_cases h2 : recognizedDrugs drugs = []
    · rw [if_pos h2] at h
      exact absurd h (by simp)
    · rw [if_neg h2] at h
      have hrep := (Except.ok.inj h).symm
      subst hrep
      constructor
      · rw [List.map_map]
        have hc : (PGxReport.drug ∘ buildReport (parseVCF vcf)) = drugToString := by
          funext d
          rfl
        rw [hc]
        exact filterMap_strToDrug_spelling _
      · intro i j hij
        rw [List.getElem?_map, List.getElem?_map, hij]

set_option maxRecDepth 8000 in
/-- Witness for claim C10 on a request naming WARFARIN twice. -/
theorem claim10_witness :
    reportsWW.map PGxReport.drug =
      ((jsSplit ',' "WARFARIN, WARFARIN").map normalizeDrug).filter
        (fun n => (strToDrug n).isSome) :=
  (claim10_report_order vcfWarfarin "WARFARIN, WARFARIN" reportsWW (by decide)).1

end VitalGene

namespace VitalGene

set_option maxRecDepth 8000 in
/-- Claim C2 fails on the code: removing the data line of a gene no
requested drug targets changes the WARFARIN report, because
`quality_metrics.variantsAnalyzed` counts every scanned data line. -/
theorem claim2_counterexample :
    processPGx vcfTwoGenes "WARFARIN" ≠ processPGx vcfWarfarin "WARFARIN" ∧
    (processPGx vcfTwoGenes "WARFARIN").map
      (List.map (fun r : PGxReport => r.quality_metrics.variantsAnalyzed)) = Except.ok [2] ∧
    (processPGx vcfWarfarin "WARFARIN").map
      (List.map (fun r : PGxReport => r.quality_metrics.variantsAnalyzed)) = Except.ok [1] := by
  decide

/-- `processLine` in closed form: metadata and pre-header lines leave the
state unchanged, the `#CHROM` header sets the flag and possibly the subject
id, and a post-header data line increments the scan count by one and
appends exactly `lineVariant` of the line. -/
theorem processLine_eq (st : ParseState) (l : String) :
    processLine st l =
      if jsTrim l = "" then st
      else if jsStartsWith (jsTrim l) "##" then st
      else if jsStartsWith (jsTrim l) "#CHROM" then
        { st with
            headerFound := true,
            patientId :=
              if (jsSplit '\t' (jsTrim l)).length > 9 then
                jsTrim ((jsSplit '\t' (jsTrim l)).getD 9 "")
              else st.patientId }
      else if st.headerFound = false then st
      else
        { st with
            variantsAnalyzed := st.variantsAnalyzed + 1,
            variants := st.variants ++ (lineVariant l).toList } := by
  simp only [processLine, lineVariant]
  split_ifs <;> try rfl
  all_goals
    try (cases hKB : VARIANT_KNOWLEDGE_BASE ((jsSplit '\t' (jsTrim l)).getD 2 "") <;>
      simp only [hKB])
  all_goals
    try (cases hMG : matchGENE ((jsSplit '\t' (jsTrim l)).getD 7 "").data <;>
      simp only [hMG])
  all_goals try split_ifs
  all_goals simp

/-- A retained variant carries the line\'s resolved gene symbol. -/
theorem lineVariant_gene (line : String) (v : Variant)
    (h : lineVariant line = Option.some v) : resolvedGene line = Option.some v.gene := by
  unfold lineVariant at h
  unfold resolvedGene
  by_cases c5 : (jsSplit '\t' (jsTrim line)).length < 8
  · rw [if_pos c5] at h
    exact absurd h (by simp)
  · rw [if_neg c5] at h
    rw [if_neg c5]
    cases hKB : VARIANT_KNOWLEDGE_BASE ((jsSplit '\t' (jsTrim line)).getD 2 "") with
    | some m =>
      simp only [hKB] at h ⊢
      by_cases c6 : TARGET_GENES.contains (geneToString m.gene)
      · rw [if_pos c6] at h
        cases h
        rfl
      · rw [if_neg c6] at h
        exact absurd h (by simp)
    | none =>
      simp only [hKB] at h ⊢
      cases hMG : matchGENE ((jsSplit '\t' (jsTrim line)).getD 7 "").data with
      | some g =>
        simp only [hMG] at h
        by_cases c6 : TARGET_GENES.contains g
        · rw [if_pos c6] at h
          cases h
          rfl
        · rw [if_neg c6] at h
          exact absurd h (by simp)
      | none =>
        simp only [hMG] at h
        exact absurd h (by simp)

/-- One parsing step preserves state agreement: the branch taken depends
only on the line and the shared header flag, and whatever a data line
appends is the same on both sides. -/
theorem processLine_agree (g : String) (k : Nat) (st st' : ParseState) (l : String)
    (h : StateAgree g k st st') : StateAgree g k (processLine st l) (processLine st' l) := by
  obtain ⟨h1, h2, h3, h4⟩ := h
  rw [processLine_eq st l, processLine_eq st' l]
  unfold StateAgree
  simp only [h1, h2]
  split_ifs <;>
    refine ⟨?_, ?_, ?_, ?_⟩ <;>
    simp [h1, h2, h3, h4, List.filter_append, Nat.add_right_comm]

/-- The whole remaining parse preserves state agreement. -/
theorem foldl_agree (g : String) (k : Nat) :
    ∀ (L : List String) (st st' : ParseState), StateAgree g k st st' →
      StateAgree g k (List.foldl processLine st L) (List.foldl processLine st' L)
  | [], _, _, h => h
  | l :: L, st, st', h => foldl_agree g k L _ _ (processLine_agree g k st st' l h)

/-- Processing one post-header data line whose resolved gene is not `g`
yields a state agreeing with the original up to one extra scanned line. -/
theorem removed_line_agree (s : ParseState) (line : String) (g : String)
    (hhf : s.headerFound = true)
    (hne : jsTrim line ≠ "")
    (hmeta : jsStartsWith (jsTrim line) "##" = false)
    (hchrom : jsStartsWith (jsTrim line) "#CHROM" = false)
    (hgene : resolvedGene line ≠ Option.some g) :
    StateAgree g 1 s (processLine s line) := by
  rw [processLine_eq]
  rw [if_neg hne, if_neg (by simp [hmeta]), if_neg (by simp [hchrom]),
      if_neg (by simp [hhf])]
  refine ⟨rfl, rfl, ?_, rfl⟩
  rw [List.filter_append]
  cases hlv : lineVariant line with
  | none => simp
  | some v =>
    have hvg : v.gene ≠ g := fun he => hgene (he ▸ lineVariant_gene line v hlv)
    simp [hvg]

/-- Removing from the input a post-header data line whose resolved gene is
not `g` leaves the parse states in agreement: same subject id and header
flag, same variants of gene `g`, one fewer scanned data line. -/
theorem parseVCF_remove_line (vcfFull vcfRemoved : String) (L1 L2 : List String)
    (line : String) (g : String)
    (hsF : jsSplit '\n' vcfFull = L1 ++ line :: L2)
    (hsR : jsSplit '\n' vcfRemoved = L1 ++ L2)
    (hhf : (List.foldl processLine initState L1).headerFound = true)
    (hne : jsTrim line ≠ "")
    (hmeta : jsStartsWith (jsTrim line) "##" = false)
    (hchrom : jsStartsWith (jsTrim line) "#CHROM" = false)
    (hgene : resolvedGene line ≠ Option.some g) :
    StateAgree g 1 (parseVCF vcfRemoved) (parseVCF vcfFull) := by
  unfold parseVCF
  rw [hsF, hsR, List.foldl_append, List.foldl_append]
  exact foldl_agree g 1 L2 _ _
    (removed_line_agree _ line g hhf hne hmeta hchrom hgene)

/-- Claim C2 amended: for every input text, removing a post-header data
line whose resolved gene is not the requested drug\'s target gene yields a
Report identical in every field except `quality_metrics.variantsAnalyzed`,
which counts all scanned data lines and is exactly one larger on the
unmodified input. -/
theorem claim2_amended (vcfFull vcfRemoved : String) (L1 L2 : List String)
    (line : String) (d : SupportedDrug)
    (hsF : jsSplit '\n' vcfFull = L1 ++ line :: L2)
    (hsR : jsSplit '\n' vcfRemoved = L1 ++ L2)
    (hhf : (List.foldl processLine initState L1).headerFound = true)
    (hne : jsTrim line ≠ "")
    (hmeta : jsStartsWith (jsTrim line) "##" = false)
    (hchrom : jsStartsWith (jsTrim line) "#CHROM" = false)
    (hgene : resolvedGene line ≠ Option.some (geneToString (DRUG_GENE_MAP d))) :
    (buildReport (parseVCF vcfFull) d).patient_id =
      (buildReport (parseVCF vcfRemoved) d).patient_id ∧
    (buildReport (parseVCF vcfFull) d).drug = (buildReport (parseVCF vcfRemoved) d).drug ∧
    (buildReport (parseVCF vcfFull) d).risk_assessment =
      (buildReport (parseVCF vcfRemoved) d).risk_assessment ∧
    (buildReport (parseVCF vcfFull) d).pharmacogenomic_profile =
      (buildReport (parseVCF vcfRemoved) d).pharmacogenomic_profile ∧
    (buildReport (parseVCF vcfFull) d).clinical_recommendation =
      (buildReport (parseVCF vcfRemoved) d).clinical_recommendation ∧
    (buildReport (parseVCF vcfFull) d).quality_metrics.vcf_parsing_success =
      (buildReport (parseVCF vcfRemoved) d).quality_metrics.vcf_parsing_success ∧
    (buildReport (parseVCF vcfFull) d).quality_metrics.pharmacogenomicVariantsFound =
      (buildReport (parseVCF vcfRemoved) d).quality_metrics.pharmacogenomicVariantsFound ∧
    (buildReport (parseVCF vcfFull) d).quality_metrics.annotationCompleteness =
      (buildReport (parseVCF vcfRemoved) d).quality_metrics.annotationCompleteness ∧
    (buildReport (parseVCF vcfFull) d).quality_metrics.variantsAnalyzed =
      (buildReport (parseVCF vcfRemoved) d).quality_metrics.variantsAnalyzed + 1 := by
  obtain ⟨h1, h2, h3, h4⟩ :=
    parseVCF_remove_line vcfFull vcfRemoved L1 L2 line (geneToString (DRUG_GENE_MAP d))
      hsF hsR hhf hne hmeta hchrom hgene
  refine ⟨?_, ?_, ?_, ?_, ?_, ?_, ?_, ?_, ?_⟩ <;>
    simp [buildReport, h1, h3, h4]

set_option maxRecDepth 8000 in
/-- Witness for the amended claim C2: deleting the CYP2C19 data line from
the two-gene input leaves the WARFARIN report identical except for the
scan count, which drops from 2 to 1. -/
theorem claim2_amended_witness :
    (buildReport (parseVCF vcfTwoGenes) .WARFARIN).quality_metrics.variantsAnalyzed =
      (buildReport (parseVCF vcfWarfarin) .WARFARIN).quality_metrics.variantsAnalyzed + 1 :=
  (claim2_amended vcfTwoGenes vcfWarfarin
    ["##fileformat=VCFv4.2",
     "#CHROM\tPOS\tID\tREF\tALT\tQUAL\tFILTER\tINFO\tFORMAT\tP1",
     "chr10\t94981296\trs1057910\tA\tC\t100\tPASS\tGENE=CYP2C9\tGT\t1/1"]
    [] "chr10\t94781859\trs4244285\tG\tA\t100\tPASS\tGENE=CYP2C19\tGT\t1/1" .WARFARIN
    (by decide) (by decide) (by decide) (by decide) (by decide) (by decide)
    (by decide)).2.2.2.2.2.2.2.2

end VitalGene
